import Mathlib

/-!
Shallow embedding of the `adk-python` fragment:
  * `src/google/adk/tools/mcp_tool/mcp_server_config.py`
      (`MCPServerConfig`, `RemoteMCPConfig`)
  * `src/google/adk/tools/mcp_tool/remote_mcp_toolset.py`
      (`RemoteMCPToolset`)
  * `src/google/adk/utils/feature_decorator.py`
      (`_make_feature_decorator`, `working_in_progress`, `experimental`)

Python dictionaries are modelled as association lists with unique keys in
insertion order (`PyDict`); dict assignment (`d[k] = v`) replaces the value
at an existing key in place or appends a fresh key at the end, and
`d.update(m)` folds assignment over `m` in order, which is exactly Python's
last-write-wins merge. Arbitrary Python values carried in `metadata` are
modelled by the inductive `PyValue`. Warnings emitted by decorated
callables are modelled by returning the list of warning messages alongside
the result. Pydantic construction of a config from typed arguments cannot
fail (the fields declare no constraint beyond presence), which the
`Except`-valued constructor makes explicit.
-/

/-- Arbitrary Python values as they appear in `metadata` dictionaries. -/
inductive PyValue where
  | str (s : String)
  | int (n : Int)
  | none
  deriving DecidableEq, Repr

/-- A Python `dict` with string keys: an association list in insertion order
with (by construction) unique keys. -/
abbrev PyDict := List (String × PyValue)

/-- Python `k in d`. -/
def dictContains (d : PyDict) (k : String) : Bool :=
  d.any (fun p => p.1 == k)

/-- Python `d[k] = v`: replace the value at an existing key in place, or
append a fresh key at the end (insertion order). -/
def dictSet : PyDict → String → PyValue → PyDict
  | [], k, v => [(k, v)]
  | p :: t, k, v => if p.1 == k then (k, v) :: t else p :: dictSet t k v

/-- Python `d.get(k)` / `d[k]`: the value at the first (hence, for unique
keys, the only) occurrence of `k`. -/
def dictGet (d : PyDict) (k : String) : Option PyValue :=
  (d.find? (fun p => p.1 == k)).map (fun p => p.2)

/-- Python `d.update(m)`: assign every entry of `m` into `d` in order, so a
later entry overwrites an earlier one and an existing one in `d`. -/
def dictUpdate (d m : PyDict) : PyDict :=
  m.foldl (fun acc p => dictSet acc p.1 p.2) d

/-- Python truthiness of an `Optional[str]`: `None` and `""` are falsy. -/
def pyTruthyStrOpt : Option String → Bool
  | Option.none => false
  | Option.some s => !(s == "")

/-- `MCPServerConfig` (mcp_server_config.py, lines 23-44): pydantic model with
required string fields `server_url` and `type`, optional `name` and
`description`, and a `metadata` dict defaulting to empty. -/
structure MCPServerConfig where
  server_url : String
  type : String
  name : Option String
  description : Option String
  metadata : PyDict
  deriving DecidableEq, Repr

/-- `MCPServerConfig.to_langdb_format` (mcp_server_config.py, lines 46-65):
build `{"server_url": ..., "type": ...}`, add `name`/`description` when
truthy, then `result.update(self.metadata)` when `metadata` is non-empty. -/
def MCPServerConfig.to_langdb_format (c : MCPServerConfig) : PyDict :=
  let result : PyDict := [("server_url", PyValue.str c.server_url), ("type", PyValue.str c.type)]
  let result :=
    match c.name with
    | Option.some n => if n == "" then result else dictSet result "name" (PyValue.str n)
    | Option.none => result
  let result :=
    match c.description with
    | Option.some d => if d == "" then result else dictSet result "description" (PyValue.str d)
    | Option.none => result
  if c.metadata.isEmpty then result else dictUpdate result c.metadata

/-- Pydantic construction `MCPServerConfig(...)` from already-typed
arguments: the field declarations (`Field(...)`) require presence only, so
construction never raises; the `Except` codomain records that there is no
error path. -/
def MCPServerConfig.construct (server_url : String) (type : String)
    (name : Option String) (description : Option String) (metadata : PyDict) :
    Except String MCPServerConfig :=
  Except.ok ⟨server_url, type, name, description, metadata⟩

/-- `MCPServerConfig.from_url` (mcp_server_config.py, lines 67-83): delegates
to the class constructor with the given url and type (`kwargs` carry the
remaining fields). -/
def MCPServerConfig.from_url (server_url : String) (server_type : String)
    (name : Option String) (description : Option String) (metadata : PyDict) :
    Except String MCPServerConfig :=
  MCPServerConfig.construct server_url server_type name description metadata

/-- `RemoteMCPConfig` (mcp_server_config.py, lines 86-128): an ordered list
of server configs. -/
structure RemoteMCPConfig where
  servers : List MCPServerConfig
  deriving DecidableEq, Repr

/-- `RemoteMCPConfig.add_server`: `self.servers.append(server)`. -/
def RemoteMCPConfig.add_server (c : RemoteMCPConfig) (s : MCPServerConfig) : RemoteMCPConfig :=
  ⟨c.servers ++ [s]⟩

/-- `RemoteMCPConfig.add_server_url`: construct via `from_url`, then append.
`from_url` never fails, so the appended config is its `ok` payload. -/
def RemoteMCPConfig.add_server_url (c : RemoteMCPConfig) (server_url : String)
    (server_type : String) (name : Option String) (description : Option String)
    (metadata : PyDict) : RemoteMCPConfig :=
  match MCPServerConfig.from_url server_url server_type name description metadata with
  | Except.ok s => c.add_server s
  | Except.error _ => c

/-- `RemoteMCPConfig.to_langdb_format`: `[server.to_langdb_format() for
server in self.servers]`. -/
def RemoteMCPConfig.to_langdb_format (c : RemoteMCPConfig) : List PyDict :=
  c.servers.map MCPServerConfig.to_langdb_format

/-- `RemoteMCPConfig.__len__`: `len(self.servers)`. -/
def RemoteMCPConfig.length (c : RemoteMCPConfig) : Nat :=
  c.servers.length

/-- `RemoteMCPConfig.__bool__`: `len(self.servers) > 0`. -/
def RemoteMCPConfig.toBool (c : RemoteMCPConfig) : Bool :=
  decide (c.servers.length > 0)

/-- Modelled from the spec: `ReadonlyContext` lives outside this fragment
(`...agents.readonly_context`); `listTools` accepts it purely for interface
conformance and never inspects it, so an abstract record suffices. -/
structure ReadonlyContext where
  tag : Nat
  deriving DecidableEq, Repr

/-- Modelled from the spec: `BaseTool` lives outside this fragment
(`..base_tool`); the adapter never constructs one, so an abstract record
suffices as the element type of the returned tool list. -/
structure BaseTool where
  tag : Nat
  deriving DecidableEq, Repr

/-- `RemoteMCPToolset` (remote_mcp_toolset.py, lines 30-185): a facade owning
one `RemoteMCPConfig`. The `tool_filter` argument is stored by the base
class and never used by any operation of this fragment, so it is omitted
from the state. -/
structure RemoteMCPToolset where
  mcp_config : RemoteMCPConfig
  deriving DecidableEq, Repr

/-- `RemoteMCPToolset.add_server` (remote_mcp_toolset.py, lines 104-129):
build an `MCPServerConfig` from the arguments (`**metadata` collects the
extra keyword arguments) and append it to the owned collection. -/
def RemoteMCPToolset.add_server (ts : RemoteMCPToolset) (server_url : String)
    (server_type : String) (name : Option String) (description : Option String)
    (metadata : PyDict) : RemoteMCPToolset :=
  ⟨ts.mcp_config.add_server ⟨server_url, server_type, name, description, metadata⟩⟩

/-- `RemoteMCPToolset.__init__` (remote_mcp_toolset.py, lines 68-102):
`if mcp_config:` uses Python truthiness (`None` falsy, a collection truthy
iff non-empty), so a supplied non-empty collection is adopted and a `None`
or empty one is replaced by a fresh empty collection; afterwards
`if server_url:` (truthy iff a non-empty string) appends an endpoint built
from the single-endpoint fields, with empty metadata. -/
def RemoteMCPToolset.init (server_url : Option String) (server_type : String)
    (server_name : Option String) (server_description : Option String)
    (mcp_config : Option RemoteMCPConfig) : RemoteMCPToolset :=
  let ts : RemoteMCPToolset :=
    match mcp_config with
    | Option.some c => if c.toBool then ⟨c⟩ else ⟨⟨[]⟩⟩
    | Option.none => ⟨⟨[]⟩⟩
  match server_url with
  | Option.some u =>
      if u == "" then ts else ts.add_server u server_type server_name server_description []
  | Option.none => ts

/-- `RemoteMCPToolset.add_server_config` (remote_mcp_toolset.py, lines
131-138): append a pre-built config to the owned collection. -/
def RemoteMCPToolset.add_server_config (ts : RemoteMCPToolset)
    (server_config : MCPServerConfig) : RemoteMCPToolset :=
  ⟨ts.mcp_config.add_server server_config⟩

/-- `RemoteMCPToolset.get_tools` (remote_mcp_toolset.py, lines 140-160):
logs the endpoint count at info level and returns the empty tool list; the
context argument is never inspected. The first component is the log output,
the second the returned tool list. -/
def RemoteMCPToolset.get_tools (ts : RemoteMCPToolset)
    (_readonly_context : Option ReadonlyContext) : List String × List BaseTool :=
  (["RemoteMCPToolset configured with " ++ toString ts.mcp_config.servers.length
      ++ " remote servers"], [])

/-- `RemoteMCPToolset.close` (remote_mcp_toolset.py, lines 162-169): no-op;
the state is returned unchanged. -/
def RemoteMCPToolset.close (ts : RemoteMCPToolset) : RemoteMCPToolset :=
  ts

/-- `RemoteMCPToolset.get_mcp_servers_config` (remote_mcp_toolset.py, lines
171-177): `self.mcp_config.to_langdb_format()`. -/
def RemoteMCPToolset.get_mcp_servers_config (ts : RemoteMCPToolset) : List PyDict :=
  ts.mcp_config.to_langdb_format

/-- `RemoteMCPToolset.__len__`: `len(self.mcp_config)`. -/
def RemoteMCPToolset.length (ts : RemoteMCPToolset) : Nat :=
  ts.mcp_config.length

/-- `RemoteMCPToolset.__bool__`: `bool(self.mcp_config)`. -/
def RemoteMCPToolset.toBool (ts : RemoteMCPToolset) : Bool :=
  ts.mcp_config.toBool

/-- The warning text of feature_decorator.py, line 33:
`f"[{label.upper()}] {obj_name}: {message}"`. -/
def warnMsg (label obj_name message : String) : String :=
  "[" ++ label.toUpper ++ "] " ++ obj_name ++ ": " ++ message

/-- A Python callable in the model: positional arguments, keyword arguments,
a returned value, together with the list of warnings the call emits. -/
def PyCallable := List PyValue → PyDict → List String × PyValue

/-- A callable that emits no warnings of its own. -/
def pureCallable (g : List PyValue → PyDict → PyValue) : PyCallable :=
  fun args kwargs => ([], g args kwargs)

/-- A Python class in the model: its `__name__` and its `__init__`, the
latter as the effect constructing an instance has (warnings emitted and the
resulting instance state). -/
structure PyClass where
  clsName : String
  init : List PyValue → PyDict → List String × PyValue

/-- The rebound `__init__` of feature_decorator.py, lines 36-43 (`new_init`):
warn, then delegate to the original `__init__` with the same arguments. -/
def wrapClass (label message : String) (c : PyClass) : PyClass :=
  ⟨c.clsName, fun args kwargs =>
    let r := c.init args kwargs
    (warnMsg label c.clsName message :: r.1, r.2)⟩

/-- The possible targets of a feature decorator: a class, a callable (with
its `__name__`), or a non-class non-callable value. -/
inductive PyObject where
  | cls (c : PyClass)
  | fn (name : String) (call : PyCallable)
  | other (v : PyValue)

/-- `_make_feature_decorator` (feature_decorator.py, lines 27-62): the
factory fixes `label` and `default_message`; `decorator_factory` takes the
optional custom message (`Option.none` models calling it with no argument);
`decorator` wraps a class by rebinding its `__init__`, wraps a callable
(keeping its `__name__`, as `functools.wraps` does), and raises `TypeError`
on anything else. -/
def _make_feature_decorator (label default_message : String) :
    Option String → PyObject → Except String PyObject :=
  fun message obj =>
    let msg := message.getD default_message
    match obj with
    | PyObject.cls c =>
        Except.ok (PyObject.cls (wrapClass label msg c))
    | PyObject.fn n f =>
        Except.ok (PyObject.fn n (fun args kwargs =>
          let r := f args kwargs
          (warnMsg label n msg :: r.1, r.2)))
    | PyObject.other _ =>
        Except.error ("@" ++ label ++ " can only be applied to classes or callable objects")

/-- `working_in_progress` (feature_decorator.py, lines 65-70). -/
def working_in_progress : Option String → PyObject → Except String PyObject :=
  _make_feature_decorator "WIP"
    "This feature is a work in progress and may be incomplete or unstable."

/-- `experimental` (feature_decorator.py, lines 82-89). -/
def experimental : Option String → PyObject → Except String PyObject :=
  _make_feature_decorator "EXPERIMENTAL"
    ("This feature is experimental and may change or be removed in future"
      ++ " versions without notice. It may introduce breaking changes at any"
      ++ " time.")

/-- A heap of class objects, standing for the Python object store: a `Nat`
reference is a class object's identity, and every alias of a class is a
reference equal to it. -/
structure ClassStore where
  classes : List PyClass

/-- Dereference a class object. -/
def readClass (s : ClassStore) (r : Nat) : Option PyClass :=
  s.classes.get? r

/-- Construct an instance through whatever class object a reference
currently designates: `SomeAlias(*args, **kwargs)`. -/
def constructVia (s : ClassStore) (r : Nat) (args : List PyValue) (kwargs : PyDict) :
    Option (List String × PyValue) :=
  (readClass s r).map (fun c => c.init args kwargs)

/-- The class branch of the decorator (feature_decorator.py, lines 35-44) as
it acts on the object store: `obj.__init__ = new_init` mutates the class
object in place and `return obj` hands back the very same reference, so the
store is updated at `r` and `r` itself is returned. -/
def decorateClassRef (label message : String) (s : ClassStore) (r : Nat) :
    ClassStore × Nat :=
  match readClass s r with
  | Option.some c => (⟨s.classes.set r (wrapClass label message c)⟩, r)
  | Option.none => (s, r)

theorem dictContains_dictSet (d : PyDict) (k k' : String) (v : PyValue) :
    dictContains (dictSet d k v) k' = (dictContains d k' || (k == k')) := by
  induction d with
  | nil => simp [dictSet, dictContains]
  | cons p t ih =>
    by_cases h : p.1 = k
    · subst h
      simp only [dictSet, beq_self_eq_true, if_true, dictContains, List.any_cons]
      cases hkk : (p.1 == k') <;> simp [hkk]
    · have hb : (p.1 == k) = false := beq_eq_false_iff_ne.mpr h
      simp [dictSet, hb, dictContains, List.any_cons] at *
      rw [ih]
      cases hpk : (p.1 == k') <;> simp [Bool.or_assoc]

theorem dictGet_dictSet_self (d : PyDict) (k : String) (v : PyValue) :
    dictGet (dictSet d k v) k = Option.some v := by
  induction d with
  | nil => simp [dictSet, dictGet, List.find?]
  | cons p t ih =>
    by_cases h : p.1 = k
    · subst h
      simp [dictSet, dictGet, List.find?]
    · have hb : (p.1 == k) = false := beq_eq_false_iff_ne.mpr h
      simpa [dictSet, hb, dictGet, List.find?] using ih

theorem dictGet_dictSet_ne (d : PyDict) (k k' : String) (v : PyValue) (h : ¬ k = k') :
    dictGet (dictSet d k v) k' = dictGet d k' := by
  have hkk : (k == k') = false := beq_eq_false_iff_ne.mpr h
  induction d with
  | nil => simp [dictSet, dictGet, List.find?, hkk]
  | cons p t ih =>
    by_cases hp : p.1 = k
    · subst hp
      simp [dictSet, dictGet, List.find?, hkk]
    · have hb : (p.1 == k) = false := beq_eq_false_iff_ne.mpr hp
      simp only [dictGet, dictSet, hb, Bool.false_eq_true, if_false, List.find?]
      cases hpk : (p.1 == k')
      · simp only [dictGet] at ih
        exact ih
      · rfl

theorem dictUpdate_cons (d : PyDict) (p : String × PyValue) (t : PyDict) :
    dictUpdate d (p :: t) = dictUpdate (dictSet d p.1 p.2) t := rfl

theorem dictContains_dictUpdate (d m : PyDict) (k : String) :
    dictContains (dictUpdate d m) k = (dictContains d k || dictContains m k) := by
  induction m generalizing d with
  | nil => simp [dictUpdate, dictContains]
  | cons p t ih =>
    rw [dictUpdate_cons, ih (dictSet d p.1 p.2), dictContains_dictSet]
    simp [dictContains, List.any_cons, Bool.or_assoc]

theorem dictContains_eq_true_iff (d : PyDict) (k : String) :
    dictContains d k = true ↔ k ∈ d.map Prod.fst := by
  simp only [dictContains, List.any_eq_true, List.mem_map, beq_iff_eq]

theorem dictGet_dictUpdate_not_contains (d m : PyDict) (k : String)
    (h : dictContains m k = false) :
    dictGet (dictUpdate d m) k = dictGet d k := by
  induction m generalizing d with
  | nil => rfl
  | cons p t ih =>
    simp only [dictContains, List.any_cons, Bool.or_eq_false_iff] at h
    rw [dictUpdate_cons, ih (dictSet d p.1 p.2) h.2, dictGet_dictSet_ne]
    exact beq_eq_false_iff_ne.mp h.1

theorem dictGet_dictUpdate_mem (d m : PyDict) (k : String) (v : PyValue)
    (hnd : (m.map Prod.fst).Nodup) (hmem : (k, v) ∈ m) :
    dictGet (dictUpdate d m) k = Option.some v := by
  induction m generalizing d with
  | nil => cases hmem
  | cons p t ih =>
    simp only [List.map_cons, List.nodup_cons] at hnd
    rw [dictUpdate_cons]
    rcases List.mem_cons.mp hmem with heq | hmem'
    · have hp1 : p.1 = k := by rw [← heq]
      have hp2 : p.2 = v := by rw [← heq]
      have hnotc : dictContains t k = false := by
        rw [← Bool.not_eq_true, dictContains_eq_true_iff]
        rw [hp1] at hnd
        exact hnd.1
      rw [dictGet_dictUpdate_not_contains _ _ _ hnotc, hp1, hp2, dictGet_dictSet_self]
    · exact ih (dictSet d p.1 p.2) hnd.2 hmem'

theorem to_langdb_contains_eq (c : MCPServerConfig) (k : String) :
    dictContains c.to_langdb_format k =
      ((("server_url" == k) || ("type" == k))
        || (pyTruthyStrOpt c.name && ("name" == k))
        || (pyTruthyStrOpt c.description && ("description" == k))
        || dictContains c.metadata k) := by
  rcases c with ⟨u, ty, nm, ds, md⟩
  have hbase : ∀ k' : String,
      dictContains [("server_url", PyValue.str u), ("type", PyValue.str ty)] k' =
        (("server_url" == k') || ("type" == k')) := by
    intro k'
    simp [dictContains]
  have hnil : ∀ k' : String, dictContains [] k' = false := by
    intro k'
    rfl
  rcases nm with _ | n <;> rcases ds with _ | d <;>
    by_cases hmde : md.isEmpty <;>
    (try by_cases hn : (n == "") = true) <;>
    (try by_cases hd : (d == "") = true) <;>
    simp_all [MCPServerConfig.to_langdb_format, pyTruthyStrOpt, dictContains_dictUpdate,
      dictContains_dictSet, List.isEmpty_iff, List.isEmpty_nil, Bool.or_assoc] <;>
    (try simp [beq_eq_false_iff_ne.mpr hn]) <;>
    (try simp [beq_eq_false_iff_ne.mpr hd])

theorem list_get?_set_self {α : Type} (l : List α) (i : Nat) (a : α) (h : i < l.length) :
    (l.set i a).get? i = Option.some a := by
  induction l generalizing i with
  | nil => cases h
  | cons x t ih =>
    cases i with
    | zero => rfl
    | succ j => exact ih j (Nat.lt_of_succ_lt_succ h)

/-- C1: `get_tools` returns the empty tool list on every toolset, however
many endpoints its collection holds, and for every optional context
(supplied or not). -/
theorem getTools_always_empty (ts : RemoteMCPToolset) (ctx : Option ReadonlyContext) :
    (ts.get_tools ctx).2 = ([] : List BaseTool) :=
  rfl

/-- C2 counterexample: a config whose `name` field is `None` but whose
metadata carries the key `"name"` still exposes a `"name"` key in
`to_langdb_format`, so the claimed iff fails. -/
theorem langdb_keys_counterexample :
    dictContains
      (MCPServerConfig.to_langdb_format
        ⟨"u", "sse", Option.none, Option.none, [("name", PyValue.str "x")]⟩) "name" = true ∧
    (MCPServerConfig.mk "u" "sse" Option.none Option.none [("name", PyValue.str "x")]).name
      = Option.none := by
  constructor
  · decide
  · rfl

/-- C2 (amended): `to_langdb_format` always contains `"server_url"` and
`"type"`; it contains `"name"` (resp. `"description"`) iff that field is
non-null and non-empty or the metadata mapping itself contains that key. -/
theorem langdb_required_and_optional_keys (c : MCPServerConfig) :
    dictContains c.to_langdb_format "server_url" = true ∧
    dictContains c.to_langdb_format "type" = true ∧
    dictContains c.to_langdb_format "name"
      = (pyTruthyStrOpt c.name || dictContains c.metadata "name") ∧
    dictContains c.to_langdb_format "description"
      = (pyTruthyStrOpt c.description || dictContains c.metadata "description") := by
  refine ⟨?_, ?_, ?_, ?_⟩ <;> rw [to_langdb_contains_eq] <;>
    cases hn : pyTruthyStrOpt c.name <;> cases hd : pyTruthyStrOpt c.description <;> simp

/-- C3: every metadata entry wins over the base fields in
`to_langdb_format` — the metadata is merged after the base fields by
`result.update(self.metadata)`, last write wins, and no error is raised on
a collision (the conversion is a total function). -/
theorem metadata_overwrites_base_fields (c : MCPServerConfig) (k : String) (v : PyValue)
    (hnd : (c.metadata.map Prod.fst).Nodup) (hmem : (k, v) ∈ c.metadata) :
    dictGet c.to_langdb_format k = Option.some v := by
  have hne : ¬ c.metadata.isEmpty = true := by
    rcases hme : c.metadata with _ | ⟨p, t⟩
    · rw [hme] at hmem
      cases hmem
    · simp
  simp only [MCPServerConfig.to_langdb_format]
  rw [if_neg hne]
  exact dictGet_dictUpdate_mem _ _ _ _ hnd hmem

/-- Witness for C3 at the spec's own example: metadata key `"type"` bound to
`"X"` yields `result["type"] == "X"`, not the connection type `"sse"`. -/
theorem metadata_overwrites_base_fields_witness :
    dictGet
      (MCPServerConfig.to_langdb_format
        ⟨"u", "sse", Option.none, Option.none, [("type", PyValue.str "X")]⟩) "type"
      = Option.some (PyValue.str "X") :=
  metadata_overwrites_base_fields
    ⟨"u", "sse", Option.none, Option.none, [("type", PyValue.str "X")]⟩
    "type" (PyValue.str "X") (by decide) (by decide)

/-- C4 counterexample: constructing with both a `server_url` and a
pre-built non-empty collection appends the endpoint built from the
single-endpoint fields to the supplied collection, so the adapter's
collection is not the supplied one and the fields are not ignored. -/
theorem init_both_sources_counterexample :
    (RemoteMCPToolset.init (Option.some "u") "sse" Option.none Option.none
        (Option.some ⟨[⟨"a", "sse", Option.none, Option.none, []⟩]⟩)).mcp_config.servers
      = [⟨"a", "sse", Option.none, Option.none, []⟩,
         ⟨"u", "sse", Option.none, Option.none, []⟩] ∧
    ¬ (RemoteMCPToolset.init (Option.some "u") "sse" Option.none Option.none
        (Option.some ⟨[⟨"a", "sse", Option.none, Option.none, []⟩]⟩)).mcp_config.servers
      = [⟨"a", "sse", Option.none, Option.none, []⟩] := by
  decide

/-- C4 (amended): when both a non-empty `server_url` and a pre-built
collection are supplied, the adapter keeps the supplied collection only if
it is non-empty (Python truthiness; an empty one is replaced by a fresh
empty collection) and in every case appends one endpoint built from the
single-endpoint fields, with empty metadata. -/
theorem init_both_sources_appends (u ty : String) (nm ds : Option String)
    (p : RemoteMCPConfig) (hu : ¬ u = "") :
    (RemoteMCPToolset.init (Option.some u) ty nm ds (Option.some p)).mcp_config.servers
      = (if p.toBool then p.servers else []) ++ [⟨u, ty, nm, ds, []⟩] := by
  have hu' : (u == "") = false := beq_eq_false_iff_ne.mpr hu
  by_cases hp : p.toBool = true <;>
    simp [RemoteMCPToolset.init, hp, hu', RemoteMCPToolset.add_server,
      RemoteMCPConfig.add_server]

/-- Witness for C4 (amended) at a one-endpoint supplied collection. -/
theorem init_both_sources_appends_witness :
    (RemoteMCPToolset.init (Option.some "u") "http" Option.none Option.none
        (Option.some ⟨[⟨"a", "sse", Option.none, Option.none, []⟩]⟩)).mcp_config.servers
      = (if (RemoteMCPConfig.mk [⟨"a", "sse", Option.none, Option.none, []⟩]).toBool
          then [⟨"a", "sse", Option.none, Option.none, []⟩] else ([] : List MCPServerConfig))
        ++ [⟨"u", "http", Option.none, Option.none, []⟩] :=
  init_both_sources_appends "u" "http" Option.none Option.none
    ⟨[⟨"a", "sse", Option.none, Option.none, []⟩]⟩ (by decide)

/-- C5 counterexample: construction with empty `server_url` and empty
`type` succeeds (no `InvalidArgument` error is raised), both directly and
via `from_url`. -/
theorem construct_empty_strings_counterexample :
    MCPServerConfig.construct "" "" Option.none Option.none []
      = Except.ok ⟨"", "", Option.none, Option.none, []⟩ ∧
    MCPServerConfig.from_url "" "" Option.none Option.none []
      = Except.ok ⟨"", "", Option.none, Option.none, []⟩ :=
  ⟨rfl, rfl⟩

/-- C5 (amended): construction never fails — any strings, empty ones
included, are accepted by the constructor and by `from_url`, and the
resulting config stores them unchanged; no validation error path exists. -/
theorem construct_never_fails (u ty : String) (nm ds : Option String) (md : PyDict) :
    MCPServerConfig.construct u ty nm ds md = Except.ok ⟨u, ty, nm, ds, md⟩ ∧
    MCPServerConfig.from_url u ty nm ds md = Except.ok ⟨u, ty, nm, ds, md⟩ :=
  ⟨rfl, rfl⟩

/-- C6: collection-level `to_langdb_format` maps the per-endpoint
conversion over the servers in order: same length, the i-th output is the
conversion of the i-th endpoint, and appending an endpoint appends its
conversion (so duplicates are kept, nothing is deduplicated). -/
theorem langdb_list_maps_in_order (c : RemoteMCPConfig) (s : MCPServerConfig) (i : Nat) :
    c.to_langdb_format = c.servers.map MCPServerConfig.to_langdb_format ∧
    c.to_langdb_format.length = c.servers.length ∧
    c.to_langdb_format[i]? = (c.servers[i]?).map MCPServerConfig.to_langdb_format ∧
    (c.add_server s).to_langdb_format = c.to_langdb_format ++ [s.to_langdb_format] := by
  refine ⟨rfl, ?_, ?_, ?_⟩
  · simp [RemoteMCPConfig.to_langdb_format]
  · simp [RemoteMCPConfig.to_langdb_format]
  · simp [RemoteMCPConfig.to_langdb_format, RemoteMCPConfig.add_server]

/-- C7: applying either predefined feature decorator to a value that is
neither a class nor callable fails at decoration time with the `TypeError`
naming the decorator's label, and this is the only failure path: on every
other target kind decoration succeeds (so nothing is deferred to call
time). -/
theorem decorator_rejects_non_callables (message : Option String) (v : PyValue)
    (obj : PyObject) :
    working_in_progress message (PyObject.other v)
      = Except.error "@WIP can only be applied to classes or callable objects" ∧
    experimental message (PyObject.other v)
      = Except.error "@EXPERIMENTAL can only be applied to classes or callable objects" ∧
    ((∃ e, working_in_progress message obj = Except.error e)
      ↔ ∃ w, obj = PyObject.other w) ∧
    ((∃ e, experimental message obj = Except.error e)
      ↔ ∃ w, obj = PyObject.other w) := by
  refine ⟨rfl, rfl, ?_, ?_⟩ <;>
    cases obj <;>
    simp [working_in_progress, experimental, _make_feature_decorator]

/-- C8: decorating a warning-free callable yields a wrapper that, on every
argument list, emits exactly the one warning `[LABEL] <name>: <message>`
and returns exactly what the undecorated callable returns on those same
arguments. -/
theorem wrapped_callable_warns_once_and_delegates (label default_message : String)
    (message : Option String) (n : String)
    (g : List PyValue → PyDict → PyValue) (args : List PyValue) (kwargs : PyDict) :
    ∃ w : PyCallable,
      _make_feature_decorator label default_message message (PyObject.fn n (pureCallable g))
        = Except.ok (PyObject.fn n w) ∧
      w args kwargs = ([warnMsg label n (message.getD default_message)], g args kwargs) :=
  ⟨_, rfl, rfl⟩

/-- C9: for collections and adapters alike, the truthiness query holds
exactly when the length is positive; a fresh collection/adapter has length
0 and is falsy, and adding one endpoint gives length 1 and truthiness. -/
theorem length_emptiness_consistency (c : RemoteMCPConfig) (ts : RemoteMCPToolset)
    (s : MCPServerConfig) (u ty : String) (nm ds : Option String) (md : PyDict) :
    (c.toBool = true ↔ 0 < c.length) ∧
    (ts.toBool = true ↔ 0 < ts.length) ∧
    (RemoteMCPConfig.mk []).length = 0 ∧
    (RemoteMCPConfig.mk []).toBool = false ∧
    ((RemoteMCPConfig.mk []).add_server s).length = 1 ∧
    ((RemoteMCPConfig.mk []).add_server s).toBool = true ∧
    (RemoteMCPToolset.init Option.none "sse" Option.none Option.none Option.none).length = 0 ∧
    (RemoteMCPToolset.init Option.none "sse" Option.none Option.none Option.none).toBool
      = false ∧
    ((RemoteMCPToolset.init Option.none "sse" Option.none Option.none Option.none).add_server
        u ty nm ds md).length = 1 ∧
    ((RemoteMCPToolset.init Option.none "sse" Option.none Option.none Option.none).add_server
        u ty nm ds md).toBool = true := by
  refine ⟨?_, ?_, rfl, rfl, ?_, ?_, rfl, rfl, ?_, ?_⟩ <;>
    simp [RemoteMCPConfig.toBool, RemoteMCPConfig.length, RemoteMCPToolset.toBool,
      RemoteMCPToolset.length, RemoteMCPConfig.add_server, RemoteMCPToolset.add_server,
      RemoteMCPToolset.init]

/-- C10: decorating a class rebinds its constructor in place on the very
class object and returns the identical reference (no wrapper, no
subclass); consequently construction through the decorated name or any
pre-existing alias of the class emits the warning and yields the instance
the original constructor builds. -/
theorem class_decoration_in_place (label message : String) (s : ClassStore) (r : Nat)
    (c : PyClass) (h : readClass s r = Option.some c) (al : Nat) (hal : al = r)
    (args : List PyValue) (kwargs : PyDict) :
    (decorateClassRef label message s r).2 = r ∧
    readClass (decorateClassRef label message s r).1 al
      = Option.some (wrapClass label message c) ∧
    constructVia (decorateClassRef label message s r).1 al args kwargs
      = Option.some (warnMsg label c.clsName message :: (c.init args kwargs).1,
          (c.init args kwargs).2) := by
  rw [hal]
  have hlt : r < s.classes.length := by
    by_contra hge
    have hnone : s.classes.get? r = Option.none :=
      List.get?_eq_none.mpr (Nat.le_of_not_lt hge)
    rw [readClass, hnone] at h
    cases h
  unfold decorateClassRef
  rw [h]
  refine ⟨rfl, ?_, ?_⟩
  · exact list_get?_set_self _ _ _ hlt
  · simp only [constructVia, readClass]
    rw [list_get?_set_self _ _ _ hlt]
    rfl

/-- Witness for C10: a one-class store, the class at reference 0, and its
alias 0. -/
theorem class_decoration_in_place_witness :
    (decorateClassRef "EXPERIMENTAL" "m" ⟨[⟨"C", fun _ _ => ([], PyValue.int 7)⟩]⟩ 0).2 = 0 ∧
    readClass (decorateClassRef "EXPERIMENTAL" "m"
        ⟨[⟨"C", fun _ _ => ([], PyValue.int 7)⟩]⟩ 0).1 0
      = Option.some (wrapClass "EXPERIMENTAL" "m" ⟨"C", fun _ _ => ([], PyValue.int 7)⟩) ∧
    constructVia (decorateClassRef "EXPERIMENTAL" "m"
        ⟨[⟨"C", fun _ _ => ([], PyValue.int 7)⟩]⟩ 0).1 0 [] []
      = Option.some (warnMsg "EXPERIMENTAL" "C" "m"
          :: ((⟨"C", fun _ _ => ([], PyValue.int 7)⟩ : PyClass).init [] []).1,
          ((⟨"C", fun _ _ => ([], PyValue.int 7)⟩ : PyClass).init [] []).2) :=
  class_decoration_in_place "EXPERIMENTAL" "m"
    ⟨[⟨"C", fun _ _ => ([], PyValue.int 7)⟩]⟩ 0
    ⟨"C", fun _ _ => ([], PyValue.int 7)⟩ rfl 0 rfl [] []
